import Mathlib

/-!
A shallow embedding of the Arduino temperature-monitoring sketch
(`src/main.ino` of Jensen-3000/H3-IoT) and proofs about it.

The sketch reads a DHT11 sensor periodically, maps a potentiometer to a
target temperature, and drives four LEDs (red = heating, blue = cooling,
green = optimal, yellow = the power on/off signal).  A push button toggles
the global flag `isYellowLEDOn`, which is persisted to EEPROM.

Modelling choices, faithful to `src/main.ino`:

* Machine state (`SysState`) holds the global flag `isYellowLEDOn`, the one
  EEPROM byte at address `EEPROM_YELLOW_LED_STATE_ADDR`, the levels of the
  four LED output pins, and the list of serial lines emitted so far.
  Three instrumentation counters record the observable events the claims
  speak about: the number of EEPROM writes, the number of sensor read
  attempts (calls of `readAndProcessTemperatureAndHumidity`), the number of
  `analogRead` calls, and the number of timer resets.
* Hardware inputs that one loop iteration consumes are gathered in `Env`:
  whether the debounced button reported a falling edge, whether the periodic
  timer reports ready, the sensor result code with its temperature/humidity
  values, and the raw potentiometer reading.
* Serial output is modelled at line granularity: each `Serial.print*`
  sequence ending in `println` appends one complete line.
* C++ implicit conversions at the EEPROM boundary are made explicit:
  a byte assigned to `bool` is true iff nonzero (`byteToBool`), and a
  `bool` passed to `EEPROM.write` becomes byte 0 or 1 (`boolToByte`).
* Power state.  The sketch samples only while `!isYellowLEDOn`
  (`readTemperaturePeriodically`), and `turnOnYellowLED` first clears the
  three temperature LEDs; the comment on `readTemperaturePeriodically` in
  `main.ino` reads "only proceeds if the system is active (yellow LED off)".
  So the state machine state `PoweredOff` of the specification corresponds
  to `isYellowLEDOn = true`: the lit yellow LED is the power-off signal and
  sampling happens exactly in the other state.
-/

namespace H3IoT

/-- Logic level HIGH of `digitalWrite`. -/
def HIGH : Bool := true

/-- Logic level LOW of `digitalWrite`. -/
def LOW : Bool := false

/-- `TEMPERATURE_READ_INTERVAL_MS` from `main.ino`. -/
def TEMPERATURE_READ_INTERVAL_MS : Int := 1000

/-- `DEBOUNCE_INTERVAL_MS` from `main.ino`. -/
def DEBOUNCE_INTERVAL_MS : Int := 25

/-- `POTENTIOMETER_MIN_VALUE` from `main.ino`. -/
def POTENTIOMETER_MIN_VALUE : Int := 0

/-- `POTENTIOMETER_MAX_VALUE` from `main.ino`. -/
def POTENTIOMETER_MAX_VALUE : Int := 1023

/-- `MIN_TARGET_TEMPERATURE` from `main.ino`. -/
def MIN_TARGET_TEMPERATURE : Int := 20

/-- `MAX_TARGET_TEMPERATURE` from `main.ino`. -/
def MAX_TARGET_TEMPERATURE : Int := 30

/-- `TEMPERATURE_OFFSET` from `main.ino`. -/
def TEMPERATURE_OFFSET : Int := 1

/-- The four LED output pins of the sketch. -/
inductive Pin where
  | redLED
  | greenLED
  | blueLED
  | yellowLED
  deriving DecidableEq, Repr

/-- The levels of the four LED output pins. -/
structure LEDPins where
  red : Bool
  green : Bool
  blue : Bool
  yellow : Bool
  deriving DecidableEq, Repr

/-- All four output pins at logic LOW (the state right after `setupPins`). -/
def allPinsLow : LEDPins :=
  { red := false, green := false, blue := false, yellow := false }

/-- `digitalWrite(pin, level)` acting on the pin-level record. -/
def pinWrite (p : LEDPins) (pin : Pin) (level : Bool) : LEDPins :=
  match pin with
  | Pin.redLED => { p with red := level }
  | Pin.greenLED => { p with green := level }
  | Pin.blueLED => { p with blue := level }
  | Pin.yellowLED => { p with yellow := level }

/-- The machine state of the sketch, with instrumentation counters for the
observable events (EEPROM writes, sensor read attempts, analog reads, timer
resets). -/
structure SysState where
  isYellowLEDOn : Bool
  eeprom : Nat
  eepromWrites : Nat
  leds : LEDPins
  serial : List String
  sensorReads : Nat
  analogReads : Nat
  timerResets : Nat
  deriving DecidableEq, Repr

/-- The hardware inputs consumed by one iteration of `loop`: the debounced
button edge, the periodic timer readiness, the sensor outcome and the raw
potentiometer value. -/
structure Env where
  buttonFell : Bool
  timerReady : Bool
  sensorResult : Int
  sensorTemp : Int
  sensorHum : Int
  potRaw : Int
  deriving DecidableEq, Repr

/-- `digitalWrite` on a machine state. -/
def digitalWrite (s : SysState) (pin : Pin) (level : Bool) : SysState :=
  { s with leds := pinWrite s.leds pin level }

/-- One complete serial line (a `Serial.print*` sequence ending in
`println`). -/
def serialPrintln (s : SysState) (line : String) : SysState :=
  { s with serial := s.serial ++ [line] }

/-- C++ implicit conversion of an EEPROM byte to `bool`: nonzero is true. -/
def byteToBool (b : Nat) : Bool := b != 0

/-- C++ implicit conversion of `bool` to the byte handed to `EEPROM.write`. -/
def boolToByte (b : Bool) : Nat := if b then 1 else 0

/-- `EEPROM.write(EEPROM_YELLOW_LED_STATE_ADDR, v)`: the sketch uses a single
one-byte slot; every call bumps the non-volatile write counter. -/
def eepromWrite (s : SysState) (v : Nat) : SysState :=
  { s with eeprom := v, eepromWrites := s.eepromWrites + 1 }

/-- `turnOffAllLEDs` from `main.ino`: four `digitalWrite(... , LOW)` calls in
source order red, green, blue, yellow. -/
def turnOffAllLEDs (s : SysState) : SysState :=
  digitalWrite (digitalWrite (digitalWrite (digitalWrite s
    Pin.redLED LOW) Pin.greenLED LOW) Pin.blueLED LOW) Pin.yellowLED LOW

/-- `turnOnYellowLED` from `main.ino`: clear all LEDs, assert yellow, log. -/
def turnOnYellowLED (s : SysState) : SysState :=
  serialPrintln (digitalWrite (turnOffAllLEDs s) Pin.yellowLED HIGH)
    ("Yellow LED is ON.")

/-- `turnOffYellowLED` from `main.ino`: deassert yellow, log. -/
def turnOffYellowLED (s : SysState) : SysState :=
  serialPrintln (digitalWrite s Pin.yellowLED LOW) ("Yellow LED is OFF.")

/-- `updateYellowLEDState` from `main.ino`. -/
def updateYellowLEDState (s : SysState) : SysState :=
  if s.isYellowLEDOn then turnOnYellowLED s else turnOffYellowLED s

/-- `toggleYellowLEDState` from `main.ino`: flip the flag, persist it (the
flipped `bool` becomes byte 0 or 1), update the yellow LED. -/
def toggleYellowLEDState (s : SysState) : SysState :=
  let s1 := { s with isYellowLEDOn := !s.isYellowLEDOn }
  let s2 := eepromWrite s1 (boolToByte s1.isYellowLEDOn)
  updateYellowLEDState s2

/-- `loadYellowLEDStateFromEEPROM` from `main.ino`: the byte read from the
slot is assigned to the `bool` flag (nonzero loads as true), then the yellow
LED is updated. -/
def loadYellowLEDStateFromEEPROM (s : SysState) : SysState :=
  updateYellowLEDState { s with isYellowLEDOn := byteToBool s.eeprom }

/-- `checkButtonPress` from `main.ino`: toggle on a debounced falling edge. -/
def checkButtonPress (env : Env) (s : SysState) : SysState :=
  if env.buttonFell then toggleYellowLEDState s else s

/-- `controlLEDsBasedOnTemperature` from `main.ino`: clear all LEDs, then
assert exactly one of red (heating), blue (cooling), green (optimal). -/
def controlLEDsBasedOnTemperature
    (s : SysState) (temperature targetTemperature : Int) : SysState :=
  let s0 := turnOffAllLEDs s
  if temperature < targetTemperature - TEMPERATURE_OFFSET then
    digitalWrite s0 Pin.redLED HIGH
  else if temperature > targetTemperature + TEMPERATURE_OFFSET then
    digitalWrite s0 Pin.blueLED HIGH
  else
    digitalWrite s0 Pin.greenLED HIGH

/-- Arduino's `map(x, in_min, in_max, out_min, out_max)` helper:
`(x - in_min) * (out_max - out_min) / (in_max - in_min) + out_min` computed
on C `long`, whose division truncates toward zero (`Int.tdiv`). -/
def arduinoMap (x inMin inMax outMin outMax : Int) : Int :=
  Int.tdiv ((x - inMin) * (outMax - outMin)) (inMax - inMin) + outMin

/-- `getTargetTemperatureFromPotentiometer` from `main.ino`: `analogRead`
the potentiometer (counted) and `map` it onto the target range.  Returns the
state together with the function's return value. -/
def getTargetTemperatureFromPotentiometer (env : Env) (s : SysState) :
    SysState × Int :=
  let potentiometerValue := env.potRaw
  ({ s with analogReads := s.analogReads + 1 },
    arduinoMap potentiometerValue POTENTIOMETER_MIN_VALUE
      POTENTIOMETER_MAX_VALUE MIN_TARGET_TEMPERATURE MAX_TARGET_TEMPERATURE)

/-- `displaySensorReadings` from `main.ino`: one readout line. -/
def displaySensorReadings
    (s : SysState) (temperature humidity targetTemperature : Int) : SysState :=
  serialPrintln s
    ("Temperature: " ++ toString temperature ++ " °C " ++ "Humidity: "
      ++ toString humidity ++ " % " ++ "Target Temperature: "
      ++ toString targetTemperature ++ " °C ")

/-- Modelled from the spec: the sensor driver (the DHT11 library) is an
external collaborator, not part of this repository; the spec reframes its
numeric failure codes as a small closed enumeration translated to fixed
human-readable strings by a lookup table owned by the sensor collaborator.
This is that lookup table (`DHT11::getErrorString`). -/
def getErrorString (errorCode : Int) : String :=
  if errorCode = 253 then ("Timeout error")
  else if errorCode = 254 then ("Checksum error")
  else ("Unknown error")

/-- `handleTemperatureSensorError` from `main.ino`: one diagnostic line
carrying the reason string mapped to the code. -/
def handleTemperatureSensorError (s : SysState) (errorCode : Int) : SysState :=
  serialPrintln s ("DHT11 Error: " ++ getErrorString errorCode)

/-- `processTemperatureAndHumidity` from `main.ino`: get the target, emit the
readout line, drive the LEDs. -/
def processTemperatureAndHumidity
    (env : Env) (s : SysState) (temperature humidity : Int) : SysState :=
  let p := getTargetTemperatureFromPotentiometer env s
  let targetTemperature := p.2
  let s1 := displaySensorReadings p.1 temperature humidity targetTemperature
  controlLEDsBasedOnTemperature s1 temperature targetTemperature

/-- `readAndProcessTemperatureAndHumidity` from `main.ino`: attempt a sensor
read (counted); on result 0 process the reading, otherwise handle the error. -/
def readAndProcessTemperatureAndHumidity (env : Env) (s : SysState) : SysState :=
  let s0 := { s with sensorReads := s.sensorReads + 1 }
  if env.sensorResult = 0 then
    processTemperatureAndHumidity env s0 env.sensorTemp env.sensorHum
  else
    handleTemperatureSensorError s0 env.sensorResult

/-- `temperatureReadTimer.reset()`: counted. -/
def timerReset (s : SysState) : SysState :=
  { s with timerResets := s.timerResets + 1 }

/-- `readTemperaturePeriodically` from `main.ino`: when the timer is ready,
sample only if `!isYellowLEDOn`, and reset the timer either way. -/
def readTemperaturePeriodically (env : Env) (s : SysState) : SysState :=
  if env.timerReady then
    let s1 := if !s.isYellowLEDOn then readAndProcessTemperatureAndHumidity env s
              else s
    timerReset s1
  else s

/-- One iteration of `loop` from `main.ino`: the debouncer update has no
modelled effect (the edge it produced is `env.buttonFell`), then
`checkButtonPress`, then `readTemperaturePeriodically`. -/
def loopIter (env : Env) (s : SysState) : SysState :=
  readTemperaturePeriodically env (checkButtonPress env s)

/-- Run `loop` once per environment in the list, in order. -/
def runLoop (envs : List Env) (s : SysState) : SysState :=
  envs.foldl (fun t e => loopIter e t) s

/-- `setup` from `main.ino`, given the byte initially stored in the EEPROM
slot: pins become outputs at LOW, the persisted state is loaded (which also
updates the yellow LED and logs), then `Setup complete.` is printed. -/
def systemBoot (initByte : Nat) : SysState :=
  let s0 : SysState :=
    { isYellowLEDOn := false, eeprom := initByte, eepromWrites := 0,
      leds := allPinsLow, serial := [], sensorReads := 0, analogReads := 0,
      timerResets := 0 }
  serialPrintln (loadYellowLEDStateFromEEPROM s0) ("Setup complete.")

/-- The spec's power state machine, read off the code: `PoweredOff` is the
state in which sampling is suppressed, i.e. `isYellowLEDOn = true` (the lit
yellow LED is the power-off signal; `readTemperaturePeriodically` samples
only while `!isYellowLEDOn`). -/
def SysState.poweredOff (s : SysState) : Bool := s.isYellowLEDOn

/-- States reachable by the program: a boot from any initial EEPROM byte,
followed by any sequence of loop iterations under arbitrary inputs. -/
inductive Reachable : SysState → Prop where
  | boot (initByte : Nat) : Reachable (systemBoot initByte)
  | step (env : Env) (s : SysState) : Reachable s → Reachable (loopIter env s)

/-- The successive pin-level states produced by the five `digitalWrite`
calls that one call of `controlLEDsBasedOnTemperature` performs, starting
from prior pin state `p`: the four clears of `turnOffAllLEDs` in source
order, then the single selected assertion. -/
def controlLEDsWriteTrace
    (p : LEDPins) (temperature targetTemperature : Int) : List LEDPins :=
  let p1 := pinWrite p Pin.redLED LOW
  let p2 := pinWrite p1 Pin.greenLED LOW
  let p3 := pinWrite p2 Pin.blueLED LOW
  let p4 := pinWrite p3 Pin.yellowLED LOW
  let p5 :=
    if temperature < targetTemperature - TEMPERATURE_OFFSET then
      pinWrite p4 Pin.redLED HIGH
    else if temperature > targetTemperature + TEMPERATURE_OFFSET then
      pinWrite p4 Pin.blueLED HIGH
    else
      pinWrite p4 Pin.greenLED HIGH
  [p1, p2, p3, p4, p5]

/-- How many of the three temperature indicator outputs (red, green, blue)
are asserted. -/
def tempLEDCount (p : LEDPins) : Nat :=
  (if p.red then 1 else 0) + (if p.green then 1 else 0)
    + (if p.blue then 1 else 0)

/-- The power-off display invariant: whenever the power state is off, the
yellow power-off signal is asserted and the three temperature indicators are
deasserted. -/
def offSignalOK (s : SysState) : Prop :=
  s.isYellowLEDOn = true →
    (s.leds.yellow = true ∧ s.leds.red = false ∧ s.leds.green = false ∧
      s.leds.blue = false)

/-- A concrete quiet environment: no button edge, timer not ready. -/
def envIdle : Env :=
  { buttonFell := false, timerReady := false, sensorResult := 0,
    sensorTemp := 22, sensorHum := 40, potRaw := 512 }

/-- A concrete environment whose timer is ready and whose sensor read
succeeds; no button edge. -/
def envTickOk : Env :=
  { buttonFell := false, timerReady := true, sensorResult := 0,
    sensorTemp := 22, sensorHum := 40, potRaw := 512 }

/-- A concrete environment whose timer is ready and whose sensor read fails
with code 253; no button edge. -/
def envTickErr : Env :=
  { buttonFell := false, timerReady := true, sensorResult := 253,
    sensorTemp := 0, sensorHum := 0, potRaw := 512 }

/-- The LED levels produced by `controlLEDsBasedOnTemperature`: exactly one of
red, blue, green is asserted, by the three-way comparison of the temperature
against the target band. -/
theorem controlLEDs_leds (s : SysState) (t g : Int) :
    (controlLEDsBasedOnTemperature s t g).leds =
      if t < g - 1 then
        { red := true, green := false, blue := false, yellow := false }
      else if t > g + 1 then
        { red := false, green := false, blue := true, yellow := false }
      else
        { red := false, green := true, blue := false, yellow := false } := by
  simp only [controlLEDsBasedOnTemperature, turnOffAllLEDs, digitalWrite,
    pinWrite, TEMPERATURE_OFFSET, HIGH, LOW]
  split_ifs <;> rfl

/-- `controlLEDsBasedOnTemperature` changes only the LED pins. -/
theorem controlLEDs_frame (s : SysState) (t g : Int) :
    (controlLEDsBasedOnTemperature s t g).isYellowLEDOn = s.isYellowLEDOn ∧
    (controlLEDsBasedOnTemperature s t g).eeprom = s.eeprom ∧
    (controlLEDsBasedOnTemperature s t g).eepromWrites = s.eepromWrites ∧
    (controlLEDsBasedOnTemperature s t g).serial = s.serial ∧
    (controlLEDsBasedOnTemperature s t g).sensorReads = s.sensorReads ∧
    (controlLEDsBasedOnTemperature s t g).analogReads = s.analogReads ∧
    (controlLEDsBasedOnTemperature s t g).timerResets = s.timerResets := by
  simp only [controlLEDsBasedOnTemperature, turnOffAllLEDs, digitalWrite,
    pinWrite, TEMPERATURE_OFFSET, HIGH, LOW]
  split_ifs <;> simp

/-- On nonnegative input, the Arduino map of the target-temperature range is
`20 + (x * 10) / 1023` in Euclidean division. -/
theorem arduinoMap_spec (x : Int) (h0 : 0 ≤ x) :
    arduinoMap x 0 1023 20 30 = 20 + (x * 10) / 1023 := by
  unfold arduinoMap
  have hx : x - 0 = x := by ring
  rw [hx]
  norm_num
  rw [Int.tdiv_eq_ediv (by omega) (by norm_num)]
  omega

/-- Claim C2: for every pair of integers (temperature, target),
`controlLEDsBasedOnTemperature` selects exactly one of the three indicator
states — red/Heating iff `temperature < target - 1`, blue/Cooling iff
`temperature > target + 1`, green/Optimal iff temperature lies in the
inclusive band `[target - 1, target + 1]` — so the three conditions are a
total partition (exactly one of the three LEDs is asserted), and both
boundary cases `temperature = target - 1` and `temperature = target + 1`
classify as Optimal, with offset fixed at 1. -/
theorem c2_indicator_partition (s : SysState) (temperature target : Int) :
    (((controlLEDsBasedOnTemperature s temperature target).leds.red = true)
        ↔ temperature < target - 1) ∧
    (((controlLEDsBasedOnTemperature s temperature target).leds.blue = true)
        ↔ temperature > target + 1) ∧
    (((controlLEDsBasedOnTemperature s temperature target).leds.green = true)
        ↔ (target - 1 ≤ temperature ∧ temperature ≤ target + 1)) ∧
    tempLEDCount (controlLEDsBasedOnTemperature s temperature target).leds
      = 1 ∧
    (controlLEDsBasedOnTemperature s (target - 1) target).leds.green = true ∧
    (controlLEDsBasedOnTemperature s (target + 1) target).leds.green = true := by
  rw [controlLEDs_leds, controlLEDs_leds, controlLEDs_leds]
  split_ifs <;> simp_all [tempLEDCount] <;> omega

/-- Claim C5: for every raw analog value in [0, 1023], the target-temperature
mapping used by `getTargetTemperatureFromPotentiometer` equals the integer
linear interpolation `20 + r * (30 - 20) / (1023 - 0)` truncating toward
zero, it is monotonically non-decreasing on [0, 1023], and it maps 0 to 20
and 1023 to 30.  (Stated for any two raw values `r ≤ r'` in range; the
second conjunct is the monotonicity.) -/
theorem c5_target_temperature_map (r r' : Int)
    (h0 : 0 ≤ r) (hrr : r ≤ r') (h1 : r' ≤ 1023) :
    arduinoMap r POTENTIOMETER_MIN_VALUE POTENTIOMETER_MAX_VALUE
        MIN_TARGET_TEMPERATURE MAX_TARGET_TEMPERATURE
      = MIN_TARGET_TEMPERATURE
        + Int.tdiv (r * (MAX_TARGET_TEMPERATURE - MIN_TARGET_TEMPERATURE))
            (POTENTIOMETER_MAX_VALUE - POTENTIOMETER_MIN_VALUE) ∧
    arduinoMap r POTENTIOMETER_MIN_VALUE POTENTIOMETER_MAX_VALUE
        MIN_TARGET_TEMPERATURE MAX_TARGET_TEMPERATURE
      ≤ arduinoMap r' POTENTIOMETER_MIN_VALUE POTENTIOMETER_MAX_VALUE
          MIN_TARGET_TEMPERATURE MAX_TARGET_TEMPERATURE ∧
    arduinoMap 0 POTENTIOMETER_MIN_VALUE POTENTIOMETER_MAX_VALUE
        MIN_TARGET_TEMPERATURE MAX_TARGET_TEMPERATURE = 20 ∧
    arduinoMap 1023 POTENTIOMETER_MIN_VALUE POTENTIOMETER_MAX_VALUE
        MIN_TARGET_TEMPERATURE MAX_TARGET_TEMPERATURE = 30 := by
  simp only [POTENTIOMETER_MIN_VALUE, POTENTIOMETER_MAX_VALUE,
    MIN_TARGET_TEMPERATURE, MAX_TARGET_TEMPERATURE]
  refine ⟨?_, ?_, by decide, by decide⟩
  · unfold arduinoMap
    norm_num
    exact add_comm _ _
  · rw [arduinoMap_spec r h0, arduinoMap_spec r' (le_trans h0 hrr)]
    have hd : r * 10 / 1023 ≤ r' * 10 / 1023 :=
      Int.ediv_le_ediv (by norm_num) (by omega)
    omega

/-- Claim C5 witness at the concrete raw values 3 and 1000. -/
theorem c5_target_temperature_map_witness :
    ((0:Int) ≤ 3 ∧ (3:Int) ≤ 1000 ∧ (1000:Int) ≤ 1023) ∧
    (arduinoMap 3 POTENTIOMETER_MIN_VALUE POTENTIOMETER_MAX_VALUE
        MIN_TARGET_TEMPERATURE MAX_TARGET_TEMPERATURE
      = MIN_TARGET_TEMPERATURE
        + Int.tdiv (3 * (MAX_TARGET_TEMPERATURE - MIN_TARGET_TEMPERATURE))
            (POTENTIOMETER_MAX_VALUE - POTENTIOMETER_MIN_VALUE) ∧
    arduinoMap 3 POTENTIOMETER_MIN_VALUE POTENTIOMETER_MAX_VALUE
        MIN_TARGET_TEMPERATURE MAX_TARGET_TEMPERATURE
      ≤ arduinoMap 1000 POTENTIOMETER_MIN_VALUE POTENTIOMETER_MAX_VALUE
          MIN_TARGET_TEMPERATURE MAX_TARGET_TEMPERATURE ∧
    arduinoMap 0 POTENTIOMETER_MIN_VALUE POTENTIOMETER_MAX_VALUE
        MIN_TARGET_TEMPERATURE MAX_TARGET_TEMPERATURE = 20 ∧
    arduinoMap 1023 POTENTIOMETER_MIN_VALUE POTENTIOMETER_MAX_VALUE
        MIN_TARGET_TEMPERATURE MAX_TARGET_TEMPERATURE = 30) :=
  ⟨⟨by decide, by decide, by decide⟩,
    c5_target_temperature_map 3 1000 (by decide) (by decide) (by decide)⟩

/-- Claim C6: `toggleYellowLEDState` is write-through and returns the new
value: it flips the in-memory power flag, performs exactly one write to the
single persisted slot (the non-volatile write counter goes up by exactly
one), the persisted byte becomes the byte encoding of the new flag, and a
load from the slot (the byte-to-bool conversion the boot load performs)
yields exactly the new in-memory value — for every starting state, hence for
both directions of the flip. -/
theorem c6_toggle_write_through (s : SysState) :
    (toggleYellowLEDState s).isYellowLEDOn = !s.isYellowLEDOn ∧
    (toggleYellowLEDState s).eepromWrites = s.eepromWrites + 1 ∧
    (toggleYellowLEDState s).eeprom = boolToByte (!s.isYellowLEDOn) ∧
    byteToBool (toggleYellowLEDState s).eeprom
      = (toggleYellowLEDState s).isYellowLEDOn := by
  cases h : s.isYellowLEDOn <;>
    simp [toggleYellowLEDState, eepromWrite, updateYellowLEDState,
      turnOnYellowLED, turnOffYellowLED, turnOffAllLEDs, digitalWrite,
      pinWrite, serialPrintln, boolToByte, byteToBool, h]

/-- Claim C9: toggle normalizes the persisted byte.  For every initial byte
`b ≤ 255`, the boot load reads any nonzero byte as true; after the first
toggle the persisted byte is exactly 0 (if `b` was nonzero) or 1 (if `b` was
0); and a toggle from any state whatsoever leaves the persisted byte in
{0, 1}, so it stays in {0, 1} after every subsequent toggle. -/
theorem c9_toggle_normalizes_byte (b : Nat) (s : SysState) (hb : b ≤ 255) :
    (systemBoot b).isYellowLEDOn = (b != 0) ∧
    (toggleYellowLEDState (systemBoot b)).eeprom
      = (if b = 0 then 1 else 0) ∧
    ((toggleYellowLEDState s).eeprom = 0 ∨
      (toggleYellowLEDState s).eeprom = 1) := by
  refine ⟨?_, ?_, ?_⟩
  · by_cases h : b = 0 <;>
      simp [systemBoot, loadYellowLEDStateFromEEPROM, updateYellowLEDState,
        byteToBool, turnOnYellowLED, turnOffYellowLED, turnOffAllLEDs,
        digitalWrite, pinWrite, serialPrintln, h]
  · by_cases h : b = 0 <;>
      simp [systemBoot, loadYellowLEDStateFromEEPROM, updateYellowLEDState,
        byteToBool, boolToByte, turnOnYellowLED, turnOffYellowLED,
        turnOffAllLEDs, digitalWrite, pinWrite, serialPrintln, eepromWrite,
        toggleYellowLEDState, h]
  · cases h : s.isYellowLEDOn <;>
      simp [toggleYellowLEDState, eepromWrite, boolToByte,
        updateYellowLEDState, turnOnYellowLED, turnOffYellowLED,
        turnOffAllLEDs, digitalWrite, pinWrite, serialPrintln, h]

/-- Claim C9 witness at the concrete boot byte 7. -/
theorem c9_toggle_normalizes_byte_witness :
    (7:Nat) ≤ 255 ∧
    ((systemBoot 7).isYellowLEDOn = ((7:Nat) != 0) ∧
    (toggleYellowLEDState (systemBoot 7)).eeprom
      = (if (7:Nat) = 0 then 1 else 0) ∧
    ((toggleYellowLEDState (systemBoot 7)).eeprom = 0 ∨
      (toggleYellowLEDState (systemBoot 7)).eeprom = 1)) :=
  ⟨by decide, c9_toggle_normalizes_byte 7 (systemBoot 7) (by decide)⟩

/-- Claim C10: the humidity reading does not influence the indicators.  Two
runs of `processTemperatureAndHumidity` from the same state with the same
temperature and the same environment (hence the same raw potentiometer
value) but different humidity values produce identical levels on all four
indicator outputs (and the same power flag, persisted byte and number of
emitted lines): humidity affects only the text of the readout line. -/
theorem c10_humidity_no_influence (env : Env) (s : SysState)
    (t hum hum' : Int) :
    (processTemperatureAndHumidity env s t hum).leds
      = (processTemperatureAndHumidity env s t hum').leds ∧
    (processTemperatureAndHumidity env s t hum).isYellowLEDOn
      = (processTemperatureAndHumidity env s t hum').isYellowLEDOn ∧
    (processTemperatureAndHumidity env s t hum).eeprom
      = (processTemperatureAndHumidity env s t hum').eeprom ∧
    (processTemperatureAndHumidity env s t hum).serial.length
      = (processTemperatureAndHumidity env s t hum').serial.length := by
  simp [processTemperatureAndHumidity, getTargetTemperatureFromPotentiometer,
    displaySensorReadings, serialPrintln, controlLEDsBasedOnTemperature,
    turnOffAllLEDs, digitalWrite, pinWrite]
  split_ifs <;> simp

/-- Claim C4: for every nonzero sensor result code, the sample-and-drive
cycle `readAndProcessTemperatureAndHumidity` emits exactly one diagnostic
line carrying the human-readable reason mapped to that code, and changes
nothing else: every indicator output keeps its prior level, the target
temperature is not read (no `analogRead` happens), no readout line is
emitted (the serial log grows by exactly the one diagnostic line), and the
power flag and persisted byte are untouched. -/
theorem c4_sensor_error_branch (env : Env) (s : SysState)
    (hErr : env.sensorResult ≠ 0) :
    (readAndProcessTemperatureAndHumidity env s).serial
      = s.serial ++ [("DHT11 Error: " ++ getErrorString env.sensorResult)] ∧
    (readAndProcessTemperatureAndHumidity env s).leds = s.leds ∧
    (readAndProcessTemperatureAndHumidity env s).analogReads
      = s.analogReads ∧
    (readAndProcessTemperatureAndHumidity env s).isYellowLEDOn
      = s.isYellowLEDOn ∧
    (readAndProcessTemperatureAndHumidity env s).eeprom = s.eeprom ∧
    (readAndProcessTemperatureAndHumidity env s).eepromWrites
      = s.eepromWrites := by
  simp [readAndProcessTemperatureAndHumidity, hErr,
    handleTemperatureSensorError, serialPrintln]

/-- Claim C4 witness: the error environment with code 253 acting on the
booted powered-on state. -/
theorem c4_sensor_error_branch_witness :
    envTickErr.sensorResult ≠ 0 ∧
    ((readAndProcessTemperatureAndHumidity envTickErr (systemBoot 0)).serial
      = (systemBoot 0).serial
        ++ [("DHT11 Error: " ++ getErrorString envTickErr.sensorResult)] ∧
    (readAndProcessTemperatureAndHumidity envTickErr (systemBoot 0)).leds
      = (systemBoot 0).leds ∧
    (readAndProcessTemperatureAndHumidity envTickErr
        (systemBoot 0)).analogReads = (systemBoot 0).analogReads ∧
    (readAndProcessTemperatureAndHumidity envTickErr
        (systemBoot 0)).isYellowLEDOn = (systemBoot 0).isYellowLEDOn ∧
    (readAndProcessTemperatureAndHumidity envTickErr (systemBoot 0)).eeprom
      = (systemBoot 0).eeprom ∧
    (readAndProcessTemperatureAndHumidity envTickErr
        (systemBoot 0)).eepromWrites = (systemBoot 0).eepromWrites) :=
  ⟨by decide, c4_sensor_error_branch envTickErr (systemBoot 0) (by decide)⟩

/-- One loop iteration taken in the PoweredOff state with no button edge
only checks and possibly resets the timer. -/
theorem loopIter_off_eq (e : Env) (s : SysState)
    (hb : e.buttonFell = false) (hOff : s.isYellowLEDOn = true) :
    loopIter e s = if e.timerReady then timerReset s else s := by
  simp [loopIter, checkButtonPress, hb, readTemperaturePeriodically, hOff]

/-- Claim C1: sampling is gated on the power state.  Starting from any state
whose power state is off (`isYellowLEDOn = true`) and running any number of
loop iterations in which no button edge occurs, no sampling ever happens —
`readAndProcessTemperatureAndHumidity` is never invoked (the sensor-read
counter is unchanged) — the system stays PoweredOff, and in every iteration
whose periodic trigger has elapsed the trigger is only checked and reset
(the reset counter grows by exactly the number of iterations with the
trigger ready). -/
theorem c1_no_sampling_while_off (s : SysState) (envs : List Env)
    (hOff : s.isYellowLEDOn = true)
    (hNoBtn : envs.all (fun e => !e.buttonFell) = true) :
    (runLoop envs s).sensorReads = s.sensorReads ∧
    (runLoop envs s).isYellowLEDOn = true ∧
    (runLoop envs s).timerResets
      = s.timerResets + (envs.filter (fun e => e.timerReady)).length := by
  induction envs generalizing s with
  | nil => simpa [runLoop] using hOff
  | cons e es ih =>
    rw [List.all_cons] at hNoBtn
    have hb : e.buttonFell = false := by
      cases h : e.buttonFell <;> simp [h] at hNoBtn ⊢
    have hes : es.all (fun x => !x.buttonFell) = true := by
      cases h : es.all (fun x => !x.buttonFell) <;> simp [h] at hNoBtn ⊢
    have hrun : runLoop (e :: es) s = runLoop es (loopIter e s) := rfl
    rw [hrun, loopIter_off_eq e s hb hOff]
    by_cases ht : e.timerReady
    · rw [if_pos ht]
      have h2 := ih (timerReset s) hOff hes
      have h3 := h2.2.2
      have h4 : (timerReset s).timerResets = s.timerResets + 1 := rfl
      have h5 : (List.filter (fun e => e.timerReady) (e :: es)).length
          = (List.filter (fun e => e.timerReady) es).length + 1 := by
        simp [List.filter_cons, ht]
      exact ⟨h2.1, h2.2.1, by omega⟩
    · rw [if_neg ht]
      have h2 := ih s hOff hes
      have h3 := h2.2.2
      have h5 : (List.filter (fun e => e.timerReady) (e :: es)).length
          = (List.filter (fun e => e.timerReady) es).length := by
        simp [List.filter_cons, ht]
      exact ⟨h2.1, h2.2.1, by omega⟩

/-- Claim C1 witness: boot from persisted byte 1 (PoweredOff), then three
iterations with the trigger ready and no button edge: no sensor read, still
off, three timer resets. -/
theorem c1_no_sampling_while_off_witness :
    ((systemBoot 1).isYellowLEDOn = true ∧
      ([envTickErr, envTickOk, envTickOk].all (fun e => !e.buttonFell))
        = true) ∧
    ((runLoop [envTickErr, envTickOk, envTickOk] (systemBoot 1)).sensorReads
      = (systemBoot 1).sensorReads ∧
    (runLoop [envTickErr, envTickOk, envTickOk]
        (systemBoot 1)).isYellowLEDOn = true ∧
    (runLoop [envTickErr, envTickOk, envTickOk] (systemBoot 1)).timerResets
      = (systemBoot 1).timerResets
        + (([envTickErr, envTickOk, envTickOk].filter
            (fun e => e.timerReady)).length)) :=
  ⟨⟨by decide, by decide⟩,
    c1_no_sampling_while_off (systemBoot 1) [envTickErr, envTickOk, envTickOk]
      (by decide) (by decide)⟩

/-- Claim C8: indicator updates are clear-then-set.  From any prior pin
state with at most one of the three temperature indicators asserted, every
state in the write trace of one`controlLEDsBasedOnTemperature` call — the
four clears of `turnOffAllLEDs`, then the single selected assertion — has at
most one temperature indicator asserted; the state just before the set (the
fourth write) has all four outputs deasserted; and the trace ends exactly in
the pin state `controlLEDsBasedOnTemperature` produces, which asserts a
single output. -/
theorem c8_clear_then_set (s : SysState) (t g : Int)
    (hPrior : tempLEDCount s.leds ≤ 1) :
    ((controlLEDsWriteTrace s.leds t g).all
        (fun p => decide (tempLEDCount p ≤ 1))) = true ∧
    (controlLEDsWriteTrace s.leds t g)[3]? = some allPinsLow ∧
    (controlLEDsWriteTrace s.leds t g).getLast?
      = some (controlLEDsBasedOnTemperature s t g).leds ∧
    tempLEDCount (controlLEDsBasedOnTemperature s t g).leds = 1 := by
  rw [controlLEDs_leds]
  revert hPrior
  generalize s.leds = L
  obtain ⟨r, gr, bl, ye⟩ := L
  intro hPrior
  simp only [controlLEDsWriteTrace, pinWrite, HIGH, LOW, TEMPERATURE_OFFSET]
  split_ifs <;>
    cases r <;> cases gr <;> cases bl <;> cases ye <;>
      simp_all [tempLEDCount, allPinsLow]

/-- The toggle flips the in-memory flag. -/
theorem toggle_flag (s : SysState) :
    (toggleYellowLEDState s).isYellowLEDOn = !s.isYellowLEDOn := by
  cases h : s.isYellowLEDOn <;>
    simp [toggleYellowLEDState, eepromWrite, updateYellowLEDState,
      turnOnYellowLED, turnOffYellowLED, turnOffAllLEDs, digitalWrite,
      pinWrite, serialPrintln, h]

/-- The toggle persists the byte encoding of the flipped flag. -/
theorem toggle_eeprom (s : SysState) :
    (toggleYellowLEDState s).eeprom = boolToByte (!s.isYellowLEDOn) := by
  cases h : s.isYellowLEDOn <;>
    simp [toggleYellowLEDState, eepromWrite, updateYellowLEDState,
      turnOnYellowLED, turnOffYellowLED, turnOffAllLEDs, digitalWrite,
      pinWrite, serialPrintln, boolToByte, h]

/-- After a toggle the persisted byte decodes to the in-memory flag. -/
theorem toggle_sync (s : SysState) :
    byteToBool (toggleYellowLEDState s).eeprom
      = (toggleYellowLEDState s).isYellowLEDOn := by
  rw [toggle_eeprom, toggle_flag]
  cases s.isYellowLEDOn <;> simp [byteToBool, boolToByte]

/-- The sample-and-drive cycle never touches the power flag, the persisted
byte or the write counter. -/
theorem sample_frame (e : Env) (s : SysState) :
    (readAndProcessTemperatureAndHumidity e s).isYellowLEDOn
      = s.isYellowLEDOn ∧
    (readAndProcessTemperatureAndHumidity e s).eeprom = s.eeprom ∧
    (readAndProcessTemperatureAndHumidity e s).eepromWrites
      = s.eepromWrites := by
  by_cases h : e.sensorResult = 0 <;>
    simp [readAndProcessTemperatureAndHumidity, h,
      processTemperatureAndHumidity, handleTemperatureSensorError,
      displaySensorReadings, serialPrintln,
      getTargetTemperatureFromPotentiometer, controlLEDsBasedOnTemperature,
      turnOffAllLEDs, digitalWrite, pinWrite] <;>
    split_ifs <;> simp

/-- `readTemperaturePeriodically` never touches the power flag, the
persisted byte or the write counter. -/
theorem rtp_frame (e : Env) (s : SysState) :
    (readTemperaturePeriodically e s).isYellowLEDOn = s.isYellowLEDOn ∧
    (readTemperaturePeriodically e s).eeprom = s.eeprom ∧
    (readTemperaturePeriodically e s).eepromWrites = s.eepromWrites := by
  by_cases ht : e.timerReady
  · by_cases hp : s.isYellowLEDOn
    · simp [readTemperaturePeriodically, ht, hp, timerReset]
    · have h := sample_frame e s
      simp [readTemperaturePeriodically, ht, hp, timerReset, h.1, h.2.1,
        h.2.2]
  · simp [readTemperaturePeriodically, ht]

/-- While PoweredOff, `readTemperaturePeriodically` leaves the LEDs alone. -/
theorem rtp_leds_off (e : Env) (s : SysState)
    (hOff : s.isYellowLEDOn = true) :
    (readTemperaturePeriodically e s).leds = s.leds := by
  by_cases ht : e.timerReady <;>
    simp [readTemperaturePeriodically, ht, hOff, timerReset]

/-- A toggle always re-establishes the power-off display invariant. -/
theorem toggle_offSignalOK (s : SysState) :
    offSignalOK (toggleYellowLEDState s) := by
  cases hs : s.isYellowLEDOn <;>
    simp [offSignalOK, toggleYellowLEDState, eepromWrite,
      updateYellowLEDState, hs, turnOnYellowLED, turnOffYellowLED,
      turnOffAllLEDs, digitalWrite, pinWrite, serialPrintln, HIGH, LOW]

/-- `checkButtonPress` preserves the power-off display invariant. -/
theorem checkButtonPress_offSignalOK (e : Env) (s : SysState)
    (h : offSignalOK s) : offSignalOK (checkButtonPress e s) := by
  by_cases hb : e.buttonFell
  · simpa [checkButtonPress, hb] using toggle_offSignalOK s
  · simpa [checkButtonPress, hb] using h

/-- `readTemperaturePeriodically` preserves the power-off display
invariant. -/
theorem rtp_offSignalOK (e : Env) (s : SysState) (h : offSignalOK s) :
    offSignalOK (readTemperaturePeriodically e s) := by
  intro hOn
  have hflag : (readTemperaturePeriodically e s).isYellowLEDOn
      = s.isYellowLEDOn := (rtp_frame e s).1
  have hOff : s.isYellowLEDOn = true := by rw [← hflag]; exact hOn
  rw [rtp_leds_off e s hOff]
  exact h hOff

/-- Every reachable state satisfies the power-off display invariant. -/
theorem reachable_offSignalOK (s : SysState) (h : Reachable s) :
    offSignalOK s := by
  induction h with
  | boot b =>
    by_cases hb : b = 0 <;>
      simp [offSignalOK, systemBoot, loadYellowLEDStateFromEEPROM,
        updateYellowLEDState, byteToBool, turnOnYellowLED, turnOffYellowLED,
        turnOffAllLEDs, digitalWrite, pinWrite, serialPrintln, allPinsLow,
        HIGH, LOW, hb]
  | step e s hs ih =>
    exact rtp_offSignalOK e _ (checkButtonPress_offSignalOK e _ ih)

/-- In every reachable state the persisted byte decodes to the in-memory
power flag (the write-through invariant of the spec's data model). -/
theorem reachable_sync (s : SysState) (h : Reachable s) :
    byteToBool s.eeprom = s.isYellowLEDOn := by
  induction h with
  | boot b =>
    by_cases hb : b = 0 <;>
      simp [systemBoot, loadYellowLEDStateFromEEPROM, updateYellowLEDState,
        byteToBool, turnOnYellowLED, turnOffYellowLED, turnOffAllLEDs,
        digitalWrite, pinWrite, serialPrintln, hb]
  | step e s hs ih =>
    have hu : byteToBool (checkButtonPress e s).eeprom
        = (checkButtonPress e s).isYellowLEDOn := by
      by_cases hb : e.buttonFell
      · simpa [checkButtonPress, hb] using toggle_sync s
      · simpa [checkButtonPress, hb] using ih
    have hf := rtp_frame e (checkButtonPress e s)
    have hrun : loopIter e s
        = readTemperaturePeriodically e (checkButtonPress e s) := rfl
    rw [hrun, hf.2.1, hf.1]
    exact hu

/-- Claim C8 witness: the powered-on booted state (all pins low), reading 22
against target 25. -/
theorem c8_clear_then_set_witness :
    tempLEDCount (systemBoot 0).leds ≤ 1 ∧
    (((controlLEDsWriteTrace (systemBoot 0).leds 22 25).all
        (fun p => decide (tempLEDCount p ≤ 1))) = true ∧
    (controlLEDsWriteTrace (systemBoot 0).leds 22 25)[3]? = some allPinsLow ∧
    (controlLEDsWriteTrace (systemBoot 0).leds 22 25).getLast?
      = some (controlLEDsBasedOnTemperature (systemBoot 0) 22 25).leds ∧
    tempLEDCount (controlLEDsBasedOnTemperature (systemBoot 0) 22 25).leds
      = 1) :=
  ⟨by decide, c8_clear_then_set (systemBoot 0) 22 25 (by decide)⟩

/-- Claim C3: in every reachable state in which the power state is off
(`isYellowLEDOn = true`), the power-off visual feedback is shown (the yellow
power-off signal is asserted) and the three temperature indicator outputs —
red/Heating, blue/Cooling, green/Optimal — are all deasserted.  Reachability
covers the boot load and every subsequent loop iteration (in particular a
toggle to off and any iteration taken while off). -/
theorem c3_power_off_display (s : SysState) (h : Reachable s)
    (hOff : s.isYellowLEDOn = true) :
    s.leds.yellow = true ∧ s.leds.red = false ∧ s.leds.green = false ∧
      s.leds.blue = false :=
  reachable_offSignalOK s h hOff

/-- Claim C3 witness: the state booted from persisted byte 1 is reachable,
is off, shows the power-off signal and has the three temperature indicators
deasserted. -/
theorem c3_power_off_display_witness :
    Reachable (systemBoot 1) ∧ (systemBoot 1).isYellowLEDOn = true ∧
    ((systemBoot 1).leds.yellow = true ∧ (systemBoot 1).leds.red = false ∧
      (systemBoot 1).leds.green = false ∧
      (systemBoot 1).leds.blue = false) :=
  ⟨Reachable.boot 1, by decide,
    c3_power_off_display (systemBoot 1) (Reachable.boot 1) (by decide)⟩

/-- Claim C7: toggling is an involution on the power state.  From every
reachable starting state, two successive calls of `toggleYellowLEDState`
return the in-memory power flag to its original value, and the persisted
byte then equals — as a boolean — the value it held before the first
toggle. -/
theorem c7_toggle_involution (s : SysState) (h : Reachable s) :
    (toggleYellowLEDState (toggleYellowLEDState s)).isYellowLEDOn
      = s.isYellowLEDOn ∧
    byteToBool (toggleYellowLEDState (toggleYellowLEDState s)).eeprom
      = byteToBool s.eeprom := by
  have hsync := reachable_sync s h
  constructor
  · rw [toggle_flag, toggle_flag, Bool.not_not]
  · rw [toggle_eeprom, toggle_flag, Bool.not_not, hsync]
    cases s.isYellowLEDOn <;> simp [byteToBool, boolToByte]

/-- Claim C7 witness: the state booted from persisted byte 5 (loaded as
true); after two toggles the flag is back and the persisted byte (now 1)
still decodes to the same boolean as the original byte 5. -/
theorem c7_toggle_involution_witness :
    Reachable (systemBoot 5) ∧
    ((toggleYellowLEDState (toggleYellowLEDState (systemBoot 5))).isYellowLEDOn
      = (systemBoot 5).isYellowLEDOn ∧
    byteToBool
        (toggleYellowLEDState (toggleYellowLEDState (systemBoot 5))).eeprom
      = byteToBool (systemBoot 5).eeprom) :=
  ⟨Reachable.boot 5,
    c7_toggle_involution (systemBoot 5) (Reachable.boot 5)⟩

end H3IoT
